import Mathlib

/-!
Verification of the AQI backend service in src/main.py.

The source is a single FastAPI application. Its own logic is orchestration
around outbound calls: geocoding (geopy Nominatim), pollutant readings
(OpenWeatherMap air-pollution endpoints), advisory text (Gemini), folium
map rendering, and the local filesystem. The embedding below models each
outbound call as an explicit outcome parameter (an `Except` value: `.error`
models the Python call raising an exception, `.ok` models a returned
value), models the touched slice of the filesystem as an explicit record,
and models observable effects (fetches, sleeps, file writes, log lines) as
an explicit event trace, so that claims about degradation, call counts and
ordering become statements about the returned values and traces.

Coordinates are floating-point in the source but are only ever passed
around opaquely (no arithmetic is performed on them), so they are embedded
as pairs of integers.
-/

namespace AqiApi

/-- A geographic coordinate pair (latitude, longitude), treated opaquely. -/
abbrev Coord := Int × Int

/-- Outcome of one outbound Python call: `.error e` models the call raising
an exception with message `e`; `.ok v` models it returning `v`. -/
abbrev Outcome (α : Type) := Except String α

/-- Constant `HEATMAP_FILE = "aqi_heatmap.html"` from the source CONFIG section. -/
def HEATMAP_FILE : String := "aqi_heatmap.html"

/-- One air-pollution reading as parsed from an upstream payload item:
the Unix timestamp `dt` and the categorical index `main.aqi`. -/
structure Reading where
  dt : Nat
  aqi : Int
deriving Repr, DecidableEq

/-- Source `get_coordinates(place)`: `geolocator.geocode` may raise (the handler
catches the exception, logs, and falls through to `return None`) or return
`None` or a location; the function returns the coordinate pair or `None`.
The parameter `geocode` is the outcome of the outbound geocoding call. -/
def get_coordinates (geocode : Outcome (Option Coord)) : Option Coord :=
  match geocode with
  | .error _ => none
  | .ok loc => loc

/-- Source `get_aqi(lat, lon)`: the chain
`requests.get(url); res.raise_for_status(); res.json()["list"][0]["main"]["aqi"]`
either raises somewhere (network error, HTTP error status, malformed JSON,
missing key, empty list) — caught, logged, returning `None` — or yields the
integer index. The parameter `fetch` is the outcome of that whole chain. -/
def get_aqi (fetch : Outcome Int) : Option Int :=
  match fetch with
  | .error _ => none
  | .ok n => some n

/-- The color dictionary literal in `get_color`. -/
def colorDict : List (Int × String) :=
  [(1, "green"), (2, "yellow"), (3, "orange"), (4, "red"), (5, "purple")]

/-- Source `get_color(aqi)`: dictionary lookup with default `"gray"`. The input is
optional because callers pass the possibly-`None` result of a read; a
`None` key is absent from the integer-keyed dictionary, so it also yields
the default. -/
def get_color (aqi : Option Int) : String :=
  match aqi with
  | some n => (colorDict.lookup n).getD "gray"
  | none => "gray"

/-- Python `str()` of an optional integer as interpolated into an f-string:
`None` prints as `"None"`. -/
def pyStr (v : Option Int) : String :=
  match v with
  | none => "None"
  | some n => toString n

/-- The prompt f-string built by `generate_health_advice`. -/
def advicePrompt (city : String) (aqi_val : Option Int) : String :=
  "The AQI in " ++ city ++ " is " ++ pyStr aqi_val ++
    ". Give a short health tip with risk level and precautions."

/-- The static fallback string returned by `generate_health_advice` when
the backend call raises. -/
def fallbackAdvice : String := "No health advice available."

/-- Source `generate_health_advice(city, aqi_val)`: build the prompt (the severity
is interpolated even when absent), call the generative backend; on success
return `res.text.strip()`, on any exception (unconfigured key, unreachable
service) return the static fallback. `gemini` maps a prompt to the outcome
of the backend call. -/
def generate_health_advice (city : String) (aqi_val : Option Int)
    (gemini : String → Outcome String) : String :=
  match gemini (advicePrompt city aqi_val) with
  | .ok text => text.trim
  | .error _ => fallbackAdvice

/-- Observable effects of the handlers and the snapshot builder.
`appendFile` is in the effect vocabulary so that append-only-log claims
are statable; the source of this revision never performs such an append. -/
inductive Event where
  | buildStart
  | fetchAqi (city : String) (c : Coord)
  | fetchForecast (c : Coord)
  | fetchCurrent (c : Coord)
  | sleep (seconds : Nat)
  | saveFile (name : String)
  | appendFile (name : String) (row : String)
  | advisoryCall (city : String) (aqi : Option Int)
  | log (msg : String)
deriving Repr, DecidableEq

/-- A folium `CircleMarker` exactly as `generate_heatmap` adds it. -/
structure Marker where
  location : Coord
  radius : Nat
  popup : String
  color : String
  fill_color : String
deriving Repr, DecidableEq

/-- The marker added for a city whose read returned index `aqi`:
`popup=f"{city} — AQI: {aqi}"`, stroke and fill color from `get_color`. -/
def makeMarker (city : String) (c : Coord) (aqi : Int) : Marker :=
  { location := c, radius := 6,
    popup := city ++ " — AQI: " ++ toString aqi,
    color := get_color (some aqi),
    fill_color := get_color (some aqi) }

/-- The slice of the filesystem the program touches: the static coordinate
table `district_coords.json` (`none` models the file being absent or
unparsable, in which case opening or `json.load` raises) and the heatmap
artifact, represented by its marker content (the legend is a constant). -/
structure Fs where
  districtCoords : Option (List (String × Coord))
  heatmap : Option (List Marker)
deriving Repr, DecidableEq

/-- The body of one iteration of the `for city, (lat, lon) in ...` loop in
`generate_heatmap`: one `get_aqi` call; if the result is truthy (in Python
`if aqi:` — false for `None` and for `0`) one marker is added; then
`time.sleep(1)` unconditionally. Returns markers added and events emitted.
`oracle` gives the outcome of the outbound read for a city/coordinate. -/
def heatmapEntry (oracle : String → Coord → Outcome Int) (p : String × Coord) :
    List Marker × List Event :=
  let aqi := get_aqi (oracle p.1 p.2)
  let ms := match aqi with
    | some n => if n ≠ 0 then [makeMarker p.1 p.2 n] else []
    | none => []
  (ms, [Event.fetchAqi p.1 p.2, Event.sleep 1])

/-- The whole `for` loop of `generate_heatmap`, iterating the coordinate
table in mapping order and concatenating markers and events. -/
def heatmapLoop (oracle : String → Coord → Outcome Int) :
    List (String × Coord) → List Marker × List Event
  | [] => ([], [])
  | p :: rest =>
      let e := heatmapEntry oracle p
      let r := heatmapLoop oracle rest
      (e.1 ++ r.1, e.2 ++ r.2)

/-- The log line printed by the `except` clause of `generate_heatmap`. -/
def heatmapFailLog : String := "Heatmap generation failed"

/-- Source `generate_heatmap()`: open and parse `district_coords.json` (absence or
a parse failure raises, and the enclosing `except` only logs, leaving the
filesystem untouched); otherwise run the loop over the entries in mapping
order, attach the static legend, and `m.save(HEATMAP_FILE)`, replacing any
previous artifact. Returns the updated filesystem and the events. -/
def generate_heatmap (oracle : String → Coord → Outcome Int) (fs : Fs) :
    Fs × List Event :=
  match fs.districtCoords with
  | none => (fs, [Event.buildStart, Event.log heatmapFailLog])
  | some table =>
      let r := heatmapLoop oracle table
      ({ fs with heatmap := some r.1 },
       Event.buildStart :: r.2 ++ [Event.saveFile HEATMAP_FILE])

/-- One cycle of the `refresh_loop` inner function of `schedule_refresh`:
print the banner, run `generate_heatmap()` (which catches all of its own
exceptions), then `await asyncio.sleep(3600)`. -/
def refresh_cycle (oracle : String → Coord → Outcome Int) (fs : Fs) :
    Fs × List Event :=
  let r := generate_heatmap oracle fs
  (r.1, Event.log "Generating heatmap..." :: r.2 ++ [Event.sleep 3600])

/-- The filesystem state at the start of cycle `n` of the refresh loop.
Outbound-call outcomes may differ from cycle to cycle, hence `oracles`.
The loop never terminates, so the state is defined for every `n`. -/
def loopFs (oracles : Nat → String → Coord → Outcome Int) (fs0 : Fs) :
    Nat → Fs
  | 0 => fs0
  | n + 1 => (refresh_cycle (oracles n) (loopFs oracles fs0 n)).1

/-- The events emitted by cycle `n` of the refresh loop. -/
def loopEvents (oracles : Nat → String → Coord → Outcome Int) (fs0 : Fs)
    (n : Nat) : List Event :=
  (refresh_cycle (oracles n) (loopFs oracles fs0 n)).2

/-- The responses a handler can produce. `okBundle` is the JSON bundle of
`/aqi`; `file` is a `FileResponse` of an existing file; `notFound` is a 404
`JSONResponse`; `serverError` is a 500 (either the `except` clause of a
handler, or `FileResponse` failing on a nonexistent path). -/
inductive Response where
  | okBundle (city : String) (current_trend forecast : List Reading)
      (gemini_advice : String)
  | file (content : List Marker)
  | notFound (error : String)
  | serverError (error : String)
deriving Repr, DecidableEq

/-- Starlette `FileResponse(path)`: serving an existing file returns its content; on
a nonexistent path the response fails with a server error. -/
def serveFile (content : Option (List Marker)) : Response :=
  match content with
  | some a => .file a
  | none => .serverError "heatmap file missing"

/-- Handler for `GET /heatmap`: if `HEATMAP_FILE` does not exist, run
`generate_heatmap()` synchronously, then serve the file. Returns the
response, the resulting filesystem, and the events emitted. -/
def get_heatmap (oracle : String → Coord → Outcome Int) (fs : Fs) :
    Response × Fs × List Event :=
  if fs.heatmap = none then
    let r := generate_heatmap oracle fs
    (serveFile r.1.heatmap, r.1, r.2)
  else
    (serveFile fs.heatmap, fs, [])

/-- Expression `latest_aqi` in `get_aqi_json`:
`combined = pd.concat([df_current, df_forecast])` and
`combined.iloc[-1]["aqi"] if not combined.empty else None`. -/
def latest_aqi (current forecast : List Reading) : Option Int :=
  ((current ++ forecast).getLast?).map Reading.aqi

/-- Handler for `GET /aqi?city=`: resolve the city (404 on failure); inside the `try`
block fetch the forecast then the current reading — each raw
`requests.get(url).json()` either raises (network error, non-JSON body, or
a malformed item making the later `i["main"]["aqi"]` access raise), which
the `except` clause turns into a 500, or yields a payload whose `list` key
may be absent, defaulting to `[]`; then compute `latest_aqi` from the
concatenation, ask for advice (which never raises), and return the bundle.
`forecastUp`/`currentUp` give the outcome of the two raw fetches at given
coordinates: `.ok none` models a JSON payload without a `list` key. -/
def get_aqi_json (city : String) (geocode : Outcome (Option Coord))
    (forecastUp currentUp : Coord → Outcome (Option (List Reading)))
    (gemini : String → Outcome String) : Response × List Event :=
  match get_coordinates geocode with
  | none => (.notFound "Location not found", [])
  | some c =>
    match forecastUp c with
    | .error e => (.serverError e, [Event.fetchForecast c])
    | .ok fOpt =>
      match currentUp c with
      | .error e =>
          (.serverError e, [Event.fetchForecast c, Event.fetchCurrent c])
      | .ok cOpt =>
          let forecast_data := fOpt.getD []
          let current_data := cOpt.getD []
          let latest := latest_aqi current_data forecast_data
          (.okBundle city current_data forecast_data
             (generate_health_advice city latest gemini),
           [Event.fetchForecast c, Event.fetchCurrent c,
            Event.advisoryCall city latest])

/-- The history-log appends within an event trace. The claims about the
History Entry log quantify over these. -/
def historyAppends (evs : List Event) : List Event :=
  evs.filter fun e => match e with
    | .appendFile _ _ => true
    | _ => false

/-- How many snapshot builds an event trace contains. -/
def buildStarts (evs : List Event) : Nat :=
  evs.countP fun e => match e with
    | .buildStart => true
    | _ => false

/-- All pollutant lookups (bulk reads and raw current/forecast fetches)
within an event trace. -/
def pollutantFetches (evs : List Event) : List Event :=
  evs.filter fun e => match e with
    | .fetchAqi _ _ => true
    | .fetchForecast _ => true
    | .fetchCurrent _ => true
    | _ => false

/-- The Pollutant Reader calls made by the snapshot builder, in order. -/
def readerCalls (evs : List Event) : List (String × Coord) :=
  evs.filterMap fun e => match e with
    | .fetchAqi city c => some (city, c)
    | _ => none

/-- The marker one table entry contributes to the artifact: present exactly
when the read outcome is a truthy value (`if aqi:` in the source — false
for `None` and for `0`). Used to characterise the builder loop. -/
def pickMarker (oracle : String → Coord → Outcome Int) (p : String × Coord) :
    Option Marker :=
  match get_aqi (oracle p.1 p.2) with
  | some n => if n ≠ 0 then some (makeMarker p.1 p.2 n) else none
  | none => none

/-! ### Helper lemmas about the builder loop, the builder, and the loop -/

theorem heatmapEntry_markers (oracle : String → Coord → Outcome Int)
    (p : String × Coord) :
    (heatmapEntry oracle p).1 = (pickMarker oracle p).toList := by
  unfold heatmapEntry pickMarker
  cases get_aqi (oracle p.1 p.2) with
  | none => rfl
  | some n =>
    by_cases h : n = 0 <;> simp [h]

theorem heatmapLoop_markers (oracle : String → Coord → Outcome Int)
    (table : List (String × Coord)) :
    (heatmapLoop oracle table).1 = table.filterMap (pickMarker oracle) := by
  induction table with
  | nil => rfl
  | cons p rest ih =>
    simp only [heatmapLoop, heatmapEntry_markers, ih, List.filterMap_cons]
    cases pickMarker oracle p <;> simp

theorem heatmapLoop_readerCalls (oracle : String → Coord → Outcome Int)
    (table : List (String × Coord)) :
    readerCalls (heatmapLoop oracle table).2 = table := by
  induction table with
  | nil => rfl
  | cons p rest ih =>
    unfold readerCalls at ih ⊢
    simp only [heatmapLoop, List.filterMap_append, ih, heatmapEntry]
    simp

theorem historyAppends_heatmapLoop (oracle : String → Coord → Outcome Int)
    (table : List (String × Coord)) :
    historyAppends (heatmapLoop oracle table).2 = [] := by
  induction table with
  | nil => rfl
  | cons p rest ih =>
    unfold historyAppends at ih ⊢
    simp only [heatmapLoop, List.filter_append, ih, heatmapEntry]
    simp

theorem buildStarts_heatmapLoop (oracle : String → Coord → Outcome Int)
    (table : List (String × Coord)) :
    buildStarts (heatmapLoop oracle table).2 = 0 := by
  induction table with
  | nil => rfl
  | cons p rest ih =>
    unfold buildStarts at ih ⊢
    simp only [heatmapLoop, List.countP_append, ih, heatmapEntry]
    simp [List.countP_cons]

theorem generate_heatmap_table (oracle : String → Coord → Outcome Int)
    (fs : Fs) (table : List (String × Coord))
    (h : fs.districtCoords = some table) :
    generate_heatmap oracle fs =
      ({ fs with heatmap := some (table.filterMap (pickMarker oracle)) },
       Event.buildStart :: (heatmapLoop oracle table).2 ++
         [Event.saveFile HEATMAP_FILE]) := by
  unfold generate_heatmap
  rw [h]
  simp [heatmapLoop_markers]

theorem generate_heatmap_noTable (oracle : String → Coord → Outcome Int)
    (fs : Fs) (h : fs.districtCoords = none) :
    generate_heatmap oracle fs =
      (fs, [Event.buildStart, Event.log heatmapFailLog]) := by
  unfold generate_heatmap
  rw [h]

theorem buildStarts_generate_heatmap (oracle : String → Coord → Outcome Int)
    (fs : Fs) :
    buildStarts (generate_heatmap oracle fs).2 = 1 := by
  cases h : fs.districtCoords with
  | none => rw [generate_heatmap_noTable oracle fs h]; rfl
  | some table =>
    rw [generate_heatmap_table oracle fs table h]
    have h0 := buildStarts_heatmapLoop oracle table
    unfold buildStarts at h0 ⊢
    simp [List.countP_cons, List.countP_append, h0]

theorem historyAppends_generate_heatmap (oracle : String → Coord → Outcome Int)
    (fs : Fs) :
    historyAppends (generate_heatmap oracle fs).2 = [] := by
  cases h : fs.districtCoords with
  | none => rw [generate_heatmap_noTable oracle fs h]; rfl
  | some table =>
    rw [generate_heatmap_table oracle fs table h]
    have h0 := historyAppends_heatmapLoop oracle table
    unfold historyAppends at h0 ⊢
    simp [List.filter_append, h0]

theorem loopEvents_unfold (oracles : Nat → String → Coord → Outcome Int)
    (fs0 : Fs) (n : Nat) :
    loopEvents oracles fs0 n =
      Event.log "Generating heatmap..." ::
        (generate_heatmap (oracles n) (loopFs oracles fs0 n)).2 ++
        [Event.sleep 3600] := rfl

theorem historyAppends_loopEvents (oracles : Nat → String → Coord → Outcome Int)
    (fs0 : Fs) (n : Nat) :
    historyAppends (loopEvents oracles fs0 n) = [] := by
  rw [loopEvents_unfold]
  have h0 := historyAppends_generate_heatmap (oracles n) (loopFs oracles fs0 n)
  unfold historyAppends at h0 ⊢
  simp [List.filter_append, h0]

/-! ### Evaluation helpers for String.trim on concrete strings -/

theorem takeWhileAux_step (s : String) (stop : String.Pos) (p : Char → Bool)
    (i : String.Pos) (h : i < stop) (hp : p (s.get i) = false) :
    Substring.takeWhileAux s stop p i = i := by
  rw [Substring.takeWhileAux]
  simp [h, hp]

theorem takeRightWhileAux_step (s : String) (b : String.Pos) (p : Char → Bool)
    (i : String.Pos) (h : b < i) (hp : p (s.get (s.prev i)) = false) :
    Substring.takeRightWhileAux s b p i = i := by
  rw [Substring.takeRightWhileAux]
  simp [h, hp]

theorem trim_ok : "ok".trim = "ok" := by
  show ("ok".toSubstring.trim).toString = "ok"
  rw [String.toSubstring, Substring.trim]
  have he : "ok".endPos = ⟨2⟩ := rfl
  rw [he]
  rw [takeWhileAux_step "ok" ⟨2⟩ Char.isWhitespace ⟨0⟩ (by decide) (by decide)]
  rw [takeRightWhileAux_step "ok" ⟨0⟩ Char.isWhitespace ⟨2⟩ (by decide) (by decide)]
  decide

/-! ### Claims -/

/-- C3: for every severity integer in 1..5 the color mapping returns
exactly green, yellow, orange, red, purple respectively, and for every
other input — including 0, 6 and an absent value — it returns gray. -/
theorem claim_color_mapping :
    get_color (some 1) = "green" ∧ get_color (some 2) = "yellow" ∧
    get_color (some 3) = "orange" ∧ get_color (some 4) = "red" ∧
    get_color (some 5) = "purple" ∧ get_color none = "gray" ∧
    ∀ n : Int, n ≠ 1 → n ≠ 2 → n ≠ 3 → n ≠ 4 → n ≠ 5 →
      get_color (some n) = "gray" := by
  refine ⟨by decide, by decide, by decide, by decide, by decide, rfl, ?_⟩
  intro n h1 h2 h3 h4 h5
  have e1 : (n == (1 : Int)) = false := beq_eq_false_iff_ne.mpr h1
  have e2 : (n == (2 : Int)) = false := beq_eq_false_iff_ne.mpr h2
  have e3 : (n == (3 : Int)) = false := beq_eq_false_iff_ne.mpr h3
  have e4 : (n == (4 : Int)) = false := beq_eq_false_iff_ne.mpr h4
  have e5 : (n == (5 : Int)) = false := beq_eq_false_iff_ne.mpr h5
  simp [get_color, colorDict, List.lookup, e1, e2, e3, e4, e5]

/-- Witness for claim_color_mapping at the concrete unmapped inputs 0
and 6. -/
theorem claim_color_mapping_witness :
    get_color (some 0) = "gray" ∧ get_color (some 6) = "gray" :=
  ⟨claim_color_mapping.2.2.2.2.2.2 0 (by decide) (by decide) (by decide)
      (by decide) (by decide),
   claim_color_mapping.2.2.2.2.2.2 6 (by decide) (by decide) (by decide)
      (by decide) (by decide)⟩

/-- C4: a /aqi request whose place name cannot be resolved — the geocoding
call raising (network error, timeout) or returning no result — yields the
404 not-found response and performs zero pollutant lookups. -/
theorem claim_unresolvable_404 :
    (∀ e : String, get_coordinates (Except.error e) = none) ∧
    get_coordinates (Except.ok none) = none ∧
    ∀ (city : String) (geocode : Outcome (Option Coord))
      (forecastUp currentUp : Coord → Outcome (Option (List Reading)))
      (gemini : String → Outcome String),
      get_coordinates geocode = none →
      get_aqi_json city geocode forecastUp currentUp gemini =
        (Response.notFound "Location not found", []) ∧
      pollutantFetches
        (get_aqi_json city geocode forecastUp currentUp gemini).2 = [] := by
  refine ⟨fun e => rfl, rfl, ?_⟩
  intro city geocode fU cU gem h
  unfold get_aqi_json
  rw [h]
  exact ⟨rfl, rfl⟩

/-- Witness for claim_unresolvable_404: a concrete request whose geocoding
returns an empty result set. -/
theorem claim_unresolvable_404_witness :
    get_aqi_json "Atlantis" (Except.ok none)
        (fun _ => Except.ok none) (fun _ => Except.ok none)
        (fun _ => Except.error "down") =
      (Response.notFound "Location not found", []) :=
  (claim_unresolvable_404.2.2 "Atlantis" (Except.ok none)
      (fun _ => Except.ok none) (fun _ => Except.ok none)
      (fun _ => Except.error "down") rfl).1

/-- C8 counterexample: with an absent severity but a reachable, configured
backend, generate_health_advice returns the backend text, not the static
fallback — the absence of the severity does not trigger the fallback as
the claim states; the value None is simply interpolated into the prompt. -/
theorem claim_advice_counterexample :
    generate_health_advice "Delhi" none (fun _ => Except.ok "ok") = "ok" ∧
    "ok" ≠ fallbackAdvice := by
  constructor
  · show "ok".trim = "ok"
    exact trim_ok
  · decide

/-- C8 (amended): generate_health_advice returns the static fallback
string exactly when the backend call raises (unconfigured or unreachable
backend); an absent severity alone does not trigger the fallback — it is
interpolated into the prompt and the stripped backend reply is returned.
In every case a string is returned, so the component never fails its
caller. -/
theorem claim_advice_amended :
    ∀ (city : String) (aqi_val : Option Int)
      (gemini : String → Outcome String),
      (∀ e, gemini (advicePrompt city aqi_val) = Except.error e →
        generate_health_advice city aqi_val gemini = fallbackAdvice) ∧
      (∀ t, gemini (advicePrompt city aqi_val) = Except.ok t →
        generate_health_advice city aqi_val gemini = t.trim) := by
  intro city aqi_val gemini
  constructor
  · intro e he
    unfold generate_health_advice
    rw [he]
  · intro t ht
    unfold generate_health_advice
    rw [ht]

/-- Witness for claim_advice_amended: a concrete call with a raising
backend returns the fallback string. -/
theorem claim_advice_amended_witness :
    generate_health_advice "Pune" (some 2) (fun _ => Except.error "no key") =
      fallbackAdvice :=
  (claim_advice_amended "Pune" (some 2)
      (fun _ => Except.error "no key")).1 "no key" rfl

/-- C1 counterexample: with the place resolved, a raising forecast fetch
(unreachable upstream or a payload the parser chokes on) makes the /aqi
handler return the 500 error response for the whole request, not a bundle
with degraded fields. -/
theorem claim_degrade_counterexample :
    (get_aqi_json "Delhi" (Except.ok (some (28, 77)))
        (fun _ => Except.error "connection error")
        (fun _ => Except.ok (some []))
        (fun _ => Except.ok "ok")).1 =
      Response.serverError "connection error" := rfl

/-- C1 (amended): after resolution, only two kinds of downstream failure
degrade per field — a payload without a list key (empty series) and an
advisory-backend failure (fallback string): whenever both raw fetches
return, the combined bundle is produced; but an exception raised by the
forecast or the current fetch fails the whole response with a 500. -/
theorem claim_degrade_amended :
    ∀ (city : String) (geocode : Outcome (Option Coord)) (c : Coord)
      (forecastUp currentUp : Coord → Outcome (Option (List Reading)))
      (gemini : String → Outcome String),
      get_coordinates geocode = some c →
      (∀ fOpt cOpt, forecastUp c = Except.ok fOpt →
        currentUp c = Except.ok cOpt →
        (get_aqi_json city geocode forecastUp currentUp gemini).1 =
          Response.okBundle city (cOpt.getD []) (fOpt.getD [])
            (generate_health_advice city
              (latest_aqi (cOpt.getD []) (fOpt.getD [])) gemini)) ∧
      (∀ fOpt e, forecastUp c = Except.ok fOpt →
        currentUp c = Except.error e →
        (get_aqi_json city geocode forecastUp currentUp gemini).1 =
          Response.serverError e) ∧
      (∀ e, forecastUp c = Except.error e →
        (get_aqi_json city geocode forecastUp currentUp gemini).1 =
          Response.serverError e) ∧
      (∀ gerr, gemini (advicePrompt city none) = Except.error gerr →
        forecastUp c = Except.ok none → currentUp c = Except.ok none →
        (get_aqi_json city geocode forecastUp currentUp gemini).1 =
          Response.okBundle city [] [] fallbackAdvice) := by
  intro city geocode c fU cU gem hgeo
  refine ⟨?_, ?_, ?_, ?_⟩
  · intro fOpt cOpt hf hc
    unfold get_aqi_json
    simp only [hgeo, hf, hc]
  · intro fOpt e hf hc
    unfold get_aqi_json
    simp only [hgeo, hf, hc]
  · intro e hf
    unfold get_aqi_json
    simp only [hgeo, hf]
  · intro gerr hg hf hc
    unfold get_aqi_json
    simp only [hgeo, hf, hc, Option.getD_none]
    rw [show latest_aqi [] [] = (none : Option Int) from rfl]
    unfold generate_health_advice
    rw [hg]

/-- Witness for claim_degrade_amended: with both fetches returning
payloads without a list key and an unconfigured advisory backend, the
concrete request still yields a bundle with empty series and the fallback
advice. -/
theorem claim_degrade_amended_witness :
    (get_aqi_json "Delhi" (Except.ok (some (28, 77)))
        (fun _ => Except.ok none) (fun _ => Except.ok none)
        (fun _ => Except.error "unconfigured")).1 =
      Response.okBundle "Delhi" [] [] fallbackAdvice :=
  (claim_degrade_amended "Delhi" (Except.ok (some (28, 77))) (28, 77)
      (fun _ => Except.ok none) (fun _ => Except.ok none)
      (fun _ => Except.error "unconfigured") rfl).2.2.2
    "unconfigured" rfl rfl rfl

/-- C2 counterexample: a build cycle over the one-place table for Delhi
whose pollutant read returns severity 4: the read yields a severity value,
yet the cycle performs zero history-log appends — this revision never
appends a History Entry anywhere, so "exactly one entry is appended" fails
already at this input. -/
theorem claim_history_counterexample :
    get_aqi (Except.ok 4) = some 4 ∧
    historyAppends (generate_heatmap (fun _ _ => Except.ok 4)
      { districtCoords := some [("Delhi", (287, 771))],
        heatmap := none }).2 = [] :=
  ⟨rfl, rfl⟩

/-- C2 (amended): no snapshot build cycle ever appends a History Entry:
neither a single build nor any cycle of the refresh loop performs a
history-log append, whatever the table and the read outcomes — this
revision maintains no history log at all. -/
theorem claim_history_amended :
    (∀ (oracle : String → Coord → Outcome Int) (fs : Fs),
      historyAppends (generate_heatmap oracle fs).2 = []) ∧
    (∀ (oracles : Nat → String → Coord → Outcome Int) (fs0 : Fs) (n : Nat),
      historyAppends (loopEvents oracles fs0 n) = []) :=
  ⟨historyAppends_generate_heatmap, historyAppends_loopEvents⟩

/-- C5 counterexample: an entry whose read returns the severity value 0
(an unmapped value, which the claim says gets a gray marker) produces no
marker at all: the truthiness test in the source skips 0. -/
theorem claim_marker_counterexample :
    get_aqi (Except.ok 0) = some 0 ∧
    ((generate_heatmap (fun _ _ => Except.ok 0)
      { districtCoords := some [("Zero", (0, 0))],
        heatmap := none }).1).heatmap = some [] :=
  ⟨rfl, rfl⟩

/-- C5 (amended): during a build over a readable table, the Pollutant
Reader is called exactly once per entry in mapping order, and a marker —
color-coded via get_color, popup city ++ " — AQI: " ++ n — is added
exactly for the entries whose read returns a nonzero severity value; a
returned 0 is falsy in the source and yields no marker, like an absent
value. -/
theorem claim_marker_amended :
    ∀ (oracle : String → Coord → Outcome Int) (fs : Fs)
      (table : List (String × Coord)),
      fs.districtCoords = some table →
      readerCalls (generate_heatmap oracle fs).2 = table ∧
      (generate_heatmap oracle fs).1.heatmap =
        some (table.filterMap (pickMarker oracle)) ∧
      (∀ (p : String × Coord) (n : Int),
        get_aqi (oracle p.1 p.2) = some n → n ≠ 0 →
        pickMarker oracle p = some
          { location := p.2, radius := 6,
            popup := p.1 ++ " — AQI: " ++ toString n,
            color := get_color (some n),
            fill_color := get_color (some n) }) ∧
      (∀ p : String × Coord, get_aqi (oracle p.1 p.2) = some 0 →
        pickMarker oracle p = none) ∧
      (∀ p : String × Coord, get_aqi (oracle p.1 p.2) = none →
        pickMarker oracle p = none) := by
  intro oracle fs table h
  refine ⟨?_, ?_, ?_, ?_, ?_⟩
  · rw [generate_heatmap_table oracle fs table h]
    have hr := heatmapLoop_readerCalls oracle table
    unfold readerCalls at hr ⊢
    simp [List.filterMap_append, hr]
  · rw [generate_heatmap_table oracle fs table h]
  · intro p n hn h0
    unfold pickMarker makeMarker
    rw [hn]
    simp [h0]
  · intro p hp
    unfold pickMarker
    rw [hp]
    simp
  · intro p hp
    unfold pickMarker
    rw [hp]

/-- Witness for claim_marker_amended: a concrete build over a one-entry
table with severity 3 calls the reader exactly on that entry. -/
theorem claim_marker_amended_witness :
    readerCalls (generate_heatmap (fun _ _ => Except.ok 3)
        { districtCoords := some [("Agra", (27, 78))],
          heatmap := none }).2 = [("Agra", (27, 78))] ∧
    pickMarker (fun _ _ => Except.ok 3) ("Agra", (27, 78)) = some
      { location := (27, 78), radius := 6,
        popup := "Agra" ++ " — AQI: " ++ toString (3 : Int),
        color := get_color (some 3), fill_color := get_color (some 3) } :=
  ⟨(claim_marker_amended (fun _ _ => Except.ok 3)
      { districtCoords := some [("Agra", (27, 78))], heatmap := none }
      [("Agra", (27, 78))] rfl).1,
   (claim_marker_amended (fun _ _ => Except.ok 3)
      { districtCoords := some [("Agra", (27, 78))], heatmap := none }
      [("Agra", (27, 78))] rfl).2.2.1 ("Agra", (27, 78)) 3 rfl
      (by decide)⟩

/-- C6 counterexample: /heatmap with no artifact on disk and no readable
coordinate table: the build runs but fails (caught, only logged), so no
artifact exists afterwards, and the response fails with a server error —
it is not a newly built artifact as the claim states for every such
request. -/
theorem claim_heatmap_build_counterexample :
    (get_heatmap (fun _ _ => Except.ok 1)
        { districtCoords := none, heatmap := none }).1 =
      Response.serverError "heatmap file missing" ∧
    ((get_heatmap (fun _ _ => Except.ok 1)
        { districtCoords := none, heatmap := none }).2.1).heatmap = none :=
  ⟨rfl, rfl⟩

/-- C6 (amended): when the artifact file is absent, the handler triggers
exactly one synchronous build before responding; if the coordinate table
is readable, the response is the newly built artifact, which is also the
artifact now on disk; if the build fails (unreadable table), no artifact
exists and the response fails with a server error. -/
theorem claim_heatmap_build_amended :
    ∀ (oracle : String → Coord → Outcome Int) (fs : Fs),
      fs.heatmap = none →
      buildStarts (get_heatmap oracle fs).2.2 = 1 ∧
      (get_heatmap oracle fs).2.1 = (generate_heatmap oracle fs).1 ∧
      (∀ table, fs.districtCoords = some table →
        (get_heatmap oracle fs).1 =
          Response.file (table.filterMap (pickMarker oracle)) ∧
        ((get_heatmap oracle fs).2.1).heatmap =
          some (table.filterMap (pickMarker oracle))) ∧
      (fs.districtCoords = none →
        (get_heatmap oracle fs).1 =
          Response.serverError "heatmap file missing") := by
  intro oracle fs h
  unfold get_heatmap
  simp only [h, if_pos rfl]
  refine ⟨buildStarts_generate_heatmap oracle fs, rfl, ?_, ?_⟩
  · intro table ht
    rw [generate_heatmap_table oracle fs table ht]
    exact ⟨rfl, rfl⟩
  · intro ht
    rw [generate_heatmap_noTable oracle fs ht]
    show serveFile fs.heatmap = _
    rw [h]
    rfl

/-- Witness for claim_heatmap_build_amended: a concrete request with the
artifact absent and a readable one-entry table responds with the newly
built artifact. -/
theorem claim_heatmap_build_amended_witness :
    (get_heatmap (fun _ _ => Except.ok 2)
        { districtCoords := some [("Agra", (27, 78))],
          heatmap := none }).1 =
      Response.file (List.filterMap (pickMarker (fun _ _ => Except.ok 2))
        [("Agra", (27, 78))]) :=
  ((claim_heatmap_build_amended (fun _ _ => Except.ok 2)
      { districtCoords := some [("Agra", (27, 78))], heatmap := none }
      rfl).2.2.1 [("Agra", (27, 78))] rfl).1

/-- C7: every cycle of the refresh loop — for every n, so forever — runs
exactly one build and ends with the same fixed 3600-second sleep; a failing
cycle (missing coordinate table) is caught, only logs, and leaves the state
unchanged, and the statement holding at n + 1 is the next cycle still
firing. -/
theorem claim_refresh_loop :
    ∀ (oracles : Nat → String → Coord → Outcome Int) (fs0 : Fs) (n : Nat),
      buildStarts (loopEvents oracles fs0 n) = 1 ∧
      (loopEvents oracles fs0 n).getLast? = some (Event.sleep 3600) ∧
      ((loopFs oracles fs0 n).districtCoords = none →
        Event.log heatmapFailLog ∈ loopEvents oracles fs0 n ∧
        loopFs oracles fs0 (n + 1) = loopFs oracles fs0 n) := by
  intro oracles fs0 n
  refine ⟨?_, ?_, ?_⟩
  · rw [loopEvents_unfold]
    have h1 := buildStarts_generate_heatmap (oracles n) (loopFs oracles fs0 n)
    unfold buildStarts at h1 ⊢
    simp [List.countP_cons, List.countP_append, h1]
  · rw [loopEvents_unfold]
    exact List.getLast?_concat _
  · intro h
    constructor
    · rw [loopEvents_unfold,
        generate_heatmap_noTable (oracles n) (loopFs oracles fs0 n) h]
      simp
    · show (refresh_cycle (oracles n) (loopFs oracles fs0 n)).1 = _
      unfold refresh_cycle
      rw [generate_heatmap_noTable (oracles n) (loopFs oracles fs0 n) h]

/-- Witness for claim_refresh_loop: the first cycle over a filesystem with
no coordinate table logs the failure and leaves the state unchanged. -/
theorem claim_refresh_loop_witness :
    Event.log heatmapFailLog ∈
      loopEvents (fun _ _ _ => Except.error "down")
        { districtCoords := none, heatmap := none } 0 ∧
    loopFs (fun _ _ _ => Except.error "down")
        { districtCoords := none, heatmap := none } 1 =
      loopFs (fun _ _ _ => Except.error "down")
        { districtCoords := none, heatmap := none } 0 :=
  (claim_refresh_loop (fun _ _ _ => Except.error "down")
      { districtCoords := none, heatmap := none } 0).2.2 rfl

/-- C9: the severity handed to the Advisory Generator is the aqi of the
last element of the concatenation current ++ forecast — in particular,
whenever the forecast is nonempty, the aqi of its last (furthest-future)
element — and the /aqi handler passes exactly this value to the generator
and puts the resulting advice in the bundle. -/
theorem claim_advisory_latest :
    (∀ (current forecast : List Reading) (r : Reading),
      (current ++ forecast).getLast? = some r →
      latest_aqi current forecast = some r.aqi) ∧
    (∀ (current forecast : List Reading) (r : Reading),
      forecast.getLast? = some r →
      latest_aqi current forecast = some r.aqi) ∧
    (∀ (city : String) (geocode : Outcome (Option Coord)) (c : Coord)
      (forecastUp currentUp : Coord → Outcome (Option (List Reading)))
      (gemini : String → Outcome String)
      (fOpt cOpt : Option (List Reading)),
      get_coordinates geocode = some c →
      forecastUp c = Except.ok fOpt → currentUp c = Except.ok cOpt →
      (get_aqi_json city geocode forecastUp currentUp gemini).2 =
        [Event.fetchForecast c, Event.fetchCurrent c,
         Event.advisoryCall city
           (latest_aqi (cOpt.getD []) (fOpt.getD []))]) := by
  refine ⟨?_, ?_, ?_⟩
  · intro current forecast r h
    unfold latest_aqi
    rw [h]
    rfl
  · intro current forecast r h
    have hne : forecast ≠ [] := by
      intro hcontra
      rw [hcontra] at h
      exact Option.noConfusion h
    unfold latest_aqi
    rw [List.getLast?_append_of_ne_nil current hne, h]
    rfl
  · intro city geocode c fU cU gem fOpt cOpt hgeo hf hc
    unfold get_aqi_json
    simp only [hgeo, hf, hc]

/-- Witness for claim_advisory_latest: a concrete nonempty forecast whose
last severity is the value selected. -/
theorem claim_advisory_latest_witness :
    latest_aqi [{ dt := 1, aqi := 2 }] [{ dt := 2, aqi := 3 },
      { dt := 3, aqi := 5 }] = some 5 :=
  claim_advisory_latest.2.1 [{ dt := 1, aqi := 2 }]
    [{ dt := 2, aqi := 3 }, { dt := 3, aqi := 5 }]
    { dt := 3, aqi := 5 } rfl

/-- C10: a /heatmap request with the artifact already on disk serves the
existing content unchanged, performs no build and no pollutant lookups,
and leaves the filesystem untouched. -/
theorem claim_heatmap_cached :
    ∀ (oracle : String → Coord → Outcome Int) (fs : Fs)
      (a : List Marker), fs.heatmap = some a →
      get_heatmap oracle fs = (Response.file a, fs, []) ∧
      buildStarts (get_heatmap oracle fs).2.2 = 0 ∧
      pollutantFetches (get_heatmap oracle fs).2.2 = [] := by
  intro oracle fs a h
  unfold get_heatmap
  simp only [h]
  refine ⟨rfl, rfl, rfl⟩

/-- Witness for claim_heatmap_cached: serving a concrete cached artifact
makes no build and no fetches. -/
theorem claim_heatmap_cached_witness :
    get_heatmap (fun _ _ => Except.ok 4)
        { districtCoords := some [("Delhi", (287, 771))],
          heatmap := some [makeMarker "Delhi" (287, 771) 4] } =
      (Response.file [makeMarker "Delhi" (287, 771) 4],
       { districtCoords := some [("Delhi", (287, 771))],
         heatmap := some [makeMarker "Delhi" (287, 771) 4] }, []) :=
  (claim_heatmap_cached (fun _ _ => Except.ok 4)
      { districtCoords := some [("Delhi", (287, 771))],
        heatmap := some [makeMarker "Delhi" (287, 771) 4] }
      [makeMarker "Delhi" (287, 771) 4] rfl).1

end AqiApi
